import Mathlib

/-!
Shallow embedding of the Nomad variables RPC endpoint
(`nomad/variables_endpoint.go`): the write path (`Apply`), response
assembly with conflict redaction (`makeVariablesApplyResponse`), the
read path (`Read`), lock renewal (`RenewLock`), and the validation
helper (`canonicalizeAndValidate`), together with theorems checking a
natural-language specification of that code.

External collaborators (the encrypter, the raft state machine, the ACL
resolver and the `structs` helper functions that live outside the file
under verification) are modelled as explicit oracle parameters, so every
theorem is quantified over (or instantiated at) their behavior.
-/

set_option autoImplicit false

deriving instance DecidableEq for Except

namespace NomadVariables

/-- Plaintext variable items: the Go `map[string]string`. `none` models a
nil Go map and `some l` a non-nil map with entries `l`, since the source
distinguishes nil from empty maps. -/
abbrev ItemsMap := List (String × String)

/-- Go `structs.VariableLock`: lock ID, TTL and LockDelay (durations as
integer nanoseconds). -/
structure VariableLock where
  id : String
  ttl : Int
  lockDelay : Int
deriving DecidableEq

/-- Go `structs.VariableMetadata`: identity and bookkeeping of a variable,
never encrypted. -/
structure VariableMetadata where
  ns : String
  path : String
  createIndex : Nat
  modifyIndex : Nat
  createTime : Int
  modifyTime : Int
  lock : Option VariableLock
deriving DecidableEq

/-- Go `structs.VariableDecrypted`: metadata plus plaintext items. -/
structure VariableDecrypted where
  meta : VariableMetadata
  items : Option ItemsMap
deriving DecidableEq

/-- Go `structs.VariableEncrypted`: metadata plus ciphertext and the key
identifier used to encrypt it. -/
structure VariableEncrypted where
  meta : VariableMetadata
  data : String
  keyID : String
deriving DecidableEq

/-- Go `structs.VarOp`: the six Apply operations. -/
inductive VarOp where
  | set | cas | delete | deleteCAS | lockAcquire | lockRelease
deriving DecidableEq

/-- Go `structs.VarOpResult`: result marker of a state-machine apply
(`ok`, `conflict`, `error`, `conflict-redacted`). -/
inductive VarOpResult where
  | ok | conflict | error | redacted
deriving DecidableEq

/-- Variable ACL capabilities (`acl.VariablesCapabilityRead` / `Write` /
`Destroy` / the list policy). -/
inductive Capability where
  | read | write | destroy | list
deriving DecidableEq

/-- The resolved ACL object: a yes/no capability oracle over
(namespace, path, capability), plus the management flag. -/
structure ACL where
  allowVariableOperation : String → String → Capability → Bool
  isManagement : Bool

/-- Errors returned by the endpoint: the distinguished
`structs.ErrPermissionDenied`, HTTP-coded RPC errors built with
`structs.NewErrRPCCoded`, and plain (uncoded) Go errors. -/
inductive RPCError where
  | permissionDenied
  | coded (status : Nat) (msg : String)
  | other (msg : String)
deriving DecidableEq

/-- The message text of an error, as Go `err.Error()` (for a coded RPC
error the underlying message). -/
def messageOf : RPCError → String
  | .permissionDenied => "Permission denied"
  | .coded _ m => m
  | .other m => m

/-- Source error `errVarNotFound`. -/
def errVarNotFound : RPCError := .coded 404 "variable doesn't exist"

/-- Source error `errLockNotFound`. -/
def errLockNotFound : RPCError := .coded 409 "variable doesn't hold a lock"

/-- Source error `errVarIsLocked`. -/
def errVarIsLocked : RPCError := .coded 409 "attempting to modify locked variable"

/-- Source error `errMissingLockInfo`. -/
def errMissingLockInfo : RPCError := .coded 400 "missing lock information"

/-- Source error `errLockOnVarCreation`. -/
def errLockOnVarCreation : RPCError := .coded 400 "variable should not contain lock definition"

/-- Source error `errItemsOnRelease`. -/
def errItemsOnRelease : RPCError := .coded 400 "lock release operation doesn't take variable items"

/-- Source error `errNoPath`. -/
def errNoPath : RPCError := .coded 400 "delete requires a Path"

/-- Stand-in for the runtime panic a nil `args.Var` dereference would
cause in Go; only reachable on inputs the endpoint's own nil-check
excludes. -/
def panicNilVariable : RPCError := .other "panic: nil variable dereference"

/-- Stand-in for the runtime panic a nil `eResp.Conflict` dereference
would cause in Go on the conflict path. -/
def panicNilConflict : RPCError := .other "panic: nil conflict dereference"

/-- Error produced when decrypting a conflicting stored value fails. -/
def errDecryptFailed : RPCError := .other "decrypt failed"

/-- Go `structs.VariablesApplyRequest`: operation, the variable (a Go
pointer, hence `Option`), and the request namespace that
`args.RequestNamespace()` resolves to. -/
structure VariablesApplyRequest where
  op : VarOp
  svar : Option VariableDecrypted
  reqNamespace : String
deriving DecidableEq

/-- `hasReadPermission` from the source: read capability on
(namespace, path). -/
def hasReadPermission (aclObj : ACL) (ns path : String) : Bool :=
  aclObj.allowVariableOperation ns path .read

/-- `hasOperationPermissions` from the source: Set/CAS/LockAcquire/
LockRelease need the write capability, Delete/DeleteCAS the destroy
capability; a denial yields `ErrPermissionDenied`. Returns `none` when
permitted. -/
def hasOperationPermissions (aclObj : ACL) (ns path : String) (op : VarOp) :
    Option RPCError :=
  match op with
  | .set | .cas | .lockAcquire | .lockRelease =>
    if aclObj.allowVariableOperation ns path .write then none
    else some .permissionDenied
  | .delete | .deleteCAS =>
    if aclObj.allowVariableOperation ns path .destroy then none
    else some .permissionDenied

/-- `isCallerOwner` from the source: the request's lock and the stored
lock are both present and carry the same ID. -/
def isCallerOwner (req : VariablesApplyRequest) (respVarMeta : VariableMetadata) : Bool :=
  match req.svar with
  | none => false
  | some v =>
    match v.meta.lock, respVarMeta.lock with
    | some reqLock, some savedLock => reqLock.id == savedLock.id
    | _, _ => false

/-- Length of a Go map value: `len` of a nil map is 0. -/
def itemsLen : Option ItemsMap → Nat
  | none => 0
  | some l => l.length

/-- Oracles for the `structs` helper functions the endpoint calls but
that are defined outside the file under verification:
`VariableDecrypted.Canonicalize`, `.Validate`, `.ValidateForLock` and
`structs.ValidatePath`. A validator returns `some msg` on failure. -/
structure StructsHooks where
  canonicalizeVar : VariableDecrypted → VariableDecrypted
  validateVar : VariableDecrypted → Option String
  validateForLock : VariableDecrypted → Option String
  validatePath : String → Option String

/-- `canonicalizeAndValidate` from the source, mirrored branch by branch.
It returns the (possibly canonicalized) request on success. The Go
function mutates `args` in place; here the updated request is returned. -/
def canonicalizeAndValidate (hooks : StructsHooks) (args : VariablesApplyRequest) :
    Except RPCError VariablesApplyRequest :=
  match args.op with
  | .lockAcquire =>
    match args.svar with
    | none => .error panicNilVariable
    | some v =>
      let v := if v.meta.lock = none then { v with meta.lock := some ⟨"", 0, 0⟩ } else v
      let v := hooks.canonicalizeVar v
      match hooks.validateForLock v with
      | some m => .error (.coded 400 m)
      | none => .ok { args with svar := some v }
  | .set | .cas =>
    match args.svar with
    | none => .error panicNilVariable
    | some v =>
      if (match v.meta.lock with
          | some l => l.lockDelay != 0 || l.ttl != 0
          | none => false) then
        .error (.coded 400 (messageOf errLockOnVarCreation))
      else
        let v := hooks.canonicalizeVar v
        match hooks.validateVar v with
        | some m => .error (.coded 400 m)
        | none => .ok { args with svar := some v }
  | .delete | .deleteCAS =>
    match args.svar with
    | none => .error errNoPath
    | some v => if v.meta.path = "" then .error errNoPath else .ok args
  | .lockRelease =>
    match args.svar with
    | none => .error errMissingLockInfo
    | some v =>
      match v.meta.lock with
      | none => .error errMissingLockInfo
      | some l =>
        if l.id = "" then .error errMissingLockInfo
        else if v.items.isSome ∨ itemsLen v.items ≠ 0 then .error errItemsOnRelease
        else
          match hooks.validatePath v.meta.path with
          | some m => .error (.other m)
          | none => .ok args

/-- Trivial instantiation of the structs oracles: canonicalization is the
identity and every validator accepts. Used for concrete witnesses. -/
def trivHooks : StructsHooks :=
  { canonicalizeVar := id
    validateVar := fun _ => none
    validateForLock := fun _ => none
    validatePath := fun _ => none }

/-- Modelled from the spec: the mutation record submitted to the
Replicated State Machine (`structs.VarApplyStateRequest`): the operation,
the encrypted variable, and the originating write-request namespace. -/
structure VarApplyStateRequest where
  op : VarOp
  svar : Option VariableEncrypted
  reqNamespace : String
deriving DecidableEq

/-- Modelled from the spec: the Replicated State Machine's result for an
apply (`structs.VarApplyStateResponse`) — a three-way result marker
(success / conflict / terminal failure), the written metadata on success,
and the currently stored (encrypted) value on conflict. -/
structure VarApplyStateResponse where
  op : VarOp
  result : VarOpResult
  error : Option RPCError
  writtenSVMeta : Option VariableMetadata
  conflict : Option VariableEncrypted
deriving DecidableEq

/-- Go `structs.VariablesApplyResponse` as assembled by the endpoint. -/
structure VariablesApplyResponse where
  op : VarOp
  input : Option VariableDecrypted
  output : Option VariableDecrypted
  conflict : Option VariableDecrypted
  result : VarOpResult
  error : Option RPCError
  index : Nat
deriving DecidableEq

/-- `makeVariablesApplyResponse` from the source, mirrored branch by
branch. `decFn` is the encrypter's decrypt oracle (ciphertext and key ID
to plaintext items, `none` on failure). Returns the Go pair
`(*VariablesApplyResponse, error)`. -/
def makeVariablesApplyResponse (decFn : String → String → Option ItemsMap)
    (req : VariablesApplyRequest) (eResp : VarApplyStateResponse) (aclObj : ACL) :
    Option VariablesApplyResponse × Option RPCError :=
  match req.svar with
  | none => (none, some panicNilVariable)
  | some v =>
    let out0 : VariablesApplyResponse :=
      { op := eResp.op, input := req.svar, output := none, conflict := none,
        result := eResp.result, error := eResp.error, index := 0 }
    let canRead := hasReadPermission aclObj v.meta.ns v.meta.path
    let isManagement := aclObj.isManagement
    if eResp.result = .ok then
      match eResp.writtenSVMeta with
      | some m =>
        let outMeta := if !(isCallerOwner req m || isManagement) then { m with lock := none } else m
        (some { out0 with output := some ⟨outMeta, v.items⟩ }, none)
      | none => (some out0, none)
    else if eResp.result = .error then
      (some out0, eResp.error)
    else
      match eResp.conflict with
      | none => (none, some panicNilConflict)
      | some c =>
        let out1 := { out0 with conflict := some ⟨c.meta, none⟩ }
        if !canRead then
          (some { out1 with result := .redacted }, none)
        else if c.keyID = "" then
          let zeroMeta : VariableMetadata :=
            { ns := c.meta.ns, path := c.meta.path, createIndex := 0, modifyIndex := 0,
              createTime := 0, modifyTime := 0, lock := none }
          (some { out1 with conflict := some ⟨zeroMeta, none⟩ }, none)
        else
          match decFn c.data c.keyID with
          | none => (none, some errDecryptFailed)
          | some items => (some { out1 with conflict := some ⟨c.meta, some items⟩ }, none)

/-- Side effects performed against the Lock Timer Registry
(`sv.timers.CreateVariableLockTTLTimer` / `RemoveVariableLockTTLTimer`). -/
inductive TimerAction where
  | create (v : VariableEncrypted)
  | remove (v : VariableEncrypted)
deriving DecidableEq

/-- Observable outcome of one `Variables.Apply` call: the returned error
(`none` = nil), the populated reply (set only when the call returns nil),
the mutation submitted to the state machine (`none` when nothing was
submitted), and the timer-registry calls performed. -/
structure ApplyResult where
  err : Option RPCError
  reply : Option VariablesApplyResponse
  submitted : Option VarApplyStateRequest
  timers : List TimerAction
deriving DecidableEq

/-- Environment of external collaborators for `Variables.Apply`:
authentication and server-version gates, the resolved ACL, the
encrypter's encrypt/decrypt oracles, the wall clock, the raft submission
oracle, and the structs helper oracles. -/
structure ApplyEnv where
  authOk : Bool
  versionOk : Bool
  resolveACL : Except RPCError ACL
  encFn : Option ItemsMap → Option (String × String)
  decFn : String → String → Option ItemsMap
  now : Int
  raft : VarApplyStateRequest → Except String (VarApplyStateResponse × Nat)
  hooks : StructsHooks

/-- Namespace defaulting from `Variables.Apply` (source lines 81-87): a
variable with an empty Namespace takes the request's namespace; a
non-empty Namespace is left unchanged. -/
def defaultTargetNamespace (args : VariablesApplyRequest) (v0 : VariableDecrypted) :
    VariableDecrypted :=
  if v0.meta.ns = "" then { v0 with meta.ns := args.reqNamespace } else v0

/-- Construction of the encrypted record to submit, per operation
(source lines 109-130): the four write operations encrypt the
(canonicalized) variable's items and stamp CreateTime/ModifyTime from
the wall clock; the delete operations build a bare record carrying only
namespace, path and ModifyIndex. -/
def buildEV (env : ApplyEnv) (op : VarOp) (v2 : VariableDecrypted) :
    Except RPCError VariableEncrypted :=
  match op with
  | .set | .cas | .lockAcquire | .lockRelease =>
    match env.encFn v2.items with
    | none => .error (.other "variable error: encrypt")
    | some (data, keyID) =>
      .ok { meta := { v2.meta with createTime := env.now, modifyTime := env.now },
            data := data, keyID := keyID }
  | .delete | .deleteCAS =>
    .ok { meta := { ns := v2.meta.ns, path := v2.meta.path, createIndex := 0,
                    modifyIndex := v2.meta.modifyIndex, createTime := 0,
                    modifyTime := 0, lock := none },
          data := "", keyID := "" }

/-- The body of `Variables.Apply` after the nil-check and namespace
defaulting: version gate, ACL resolution, permission check, validation,
encryption, raft submission, response assembly, and the post-commit
timer-registry side effects. -/
def applyBody (env : ApplyEnv) (args1 : VariablesApplyRequest) : ApplyResult :=
  match args1.svar with
  | none => ⟨some panicNilVariable, none, none, []⟩
  | some v1 =>
    if !env.versionOk then
      ⟨some (.other "all servers must be running a supported version to apply variables"),
        none, none, []⟩
    else
      match env.resolveACL with
      | .error e => ⟨some e, none, none, []⟩
      | .ok aclObj =>
        match hasOperationPermissions aclObj v1.meta.ns v1.meta.path args1.op with
        | some e => ⟨some e, none, none, []⟩
        | none =>
          match canonicalizeAndValidate env.hooks args1 with
          | .error e => ⟨some (.coded 400 (messageOf e)), none, none, []⟩
          | .ok args2 =>
            match args2.svar with
            | none => ⟨some panicNilVariable, none, none, []⟩
            | some v2 =>
              match buildEV env args2.op v2 with
              | .error e => ⟨some e, none, none, []⟩
              | .ok ev =>
                let sveArgs : VarApplyStateRequest :=
                  { op := args2.op, svar := some ev, reqNamespace := args2.reqNamespace }
                match env.raft sveArgs with
                | .error m => ⟨some (.other ("raft apply failed: " ++ m)), none, some sveArgs, []⟩
                | .ok (out, index) =>
                  match makeVariablesApplyResponse env.decFn args2 out aclObj with
                  | (_, some e) => ⟨some e, none, some sveArgs, []⟩
                  | (none, none) => ⟨some (.other "nil response"), none, some sveArgs, []⟩
                  | (some r, none) =>
                    let timers : List TimerAction :=
                      if out.result = .ok then
                        match args2.op with
                        | .lockAcquire => [.create ev]
                        | .lockRelease => [.remove ev]
                        | _ => []
                      else []
                    ⟨none, some { r with index := index }, some sveArgs, timers⟩

/-- `Variables.Apply` from the source: authentication gate, nil-variable
check, namespace defaulting, then `applyBody`. -/
def applyModel (env : ApplyEnv) (args : VariablesApplyRequest) : ApplyResult :=
  if !env.authOk then ⟨some .permissionDenied, none, none, []⟩
  else
    match args.svar with
    | none => ⟨some (.other "variable must not be nil"), none, none, []⟩
    | some v0 => applyBody env { args with svar := some (defaultTargetNamespace args v0) }

/-- The per-request body of `Variables.Read` (the blocking-query `run`
closure, source lines 355-381): decrypt the stored variable if present,
strip the lock for non-management callers, and report its ModifyIndex;
when absent report the variables table's maximum index (the
`setReplyQueryMeta` call, modelled from the spec as the table's max
index). Returns the reply's `(Data, Index)`. -/
def variablesReadRun (decFn : String → String → Option ItemsMap) (aclObj : ACL)
    (stored : Option VariableEncrypted) (tableMaxIndex : Nat) :
    Except RPCError (Option VariableDecrypted × Nat) :=
  match stored with
  | some out =>
    match decFn out.data out.keyID with
    | none => .error errDecryptFailed
    | some items =>
      let dv : VariableDecrypted := { meta := out.meta, items := some items }
      let ov := if !aclObj.isManagement then { dv with meta.lock := none } else dv
      .ok (some ov, out.meta.modifyIndex)
  | none => .ok (none, tableMaxIndex)

/-- Environment for `Variables.RenewLock`: authentication gate, resolved
ACL, the `args.Validate()` structs oracle, the state-store lookup result
for (namespace, path), and the Lock Timer Registry's `RenewTTLTimer`
oracle (`some msg` = error). -/
structure RenewEnv where
  authOk : Bool
  resolveACL : Except RPCError ACL
  validateArgs : Option String
  stored : Option VariableEncrypted
  renewTTL : VariableEncrypted → Option String

/-- Go `structs.VariablesRenewLockRequest`: path, the caller's lock ID,
and the write-request namespace. -/
structure VariablesRenewLockRequest where
  path : String
  lockID : String
  wrNamespace : String
deriving DecidableEq

/-- `Variables.RenewLock` from the source: write-capability gate,
request validation, state lookup, lock-presence and lock-ID checks, then
delegation to the timer registry; on success returns the stored metadata
and its ModifyIndex. -/
def renewLockModel (env : RenewEnv) (args : VariablesRenewLockRequest) :
    Except RPCError (VariableMetadata × Nat) :=
  if !env.authOk then .error .permissionDenied
  else
    match env.resolveACL with
    | .error e => .error e
    | .ok aclObj =>
      if !aclObj.allowVariableOperation args.wrNamespace args.path .write then
        .error .permissionDenied
      else
        match env.validateArgs with
        | some m => .error (.other m)
        | none =>
          match env.stored with
          | none => .error errVarNotFound
          | some encryptedVar =>
            match encryptedVar.meta.lock with
            | none => .error errLockNotFound
            | some l =>
              if l.id ≠ args.lockID then .error errVarIsLocked
              else
                match env.renewTTL encryptedVar with
                | some _ => .error errVarIsLocked
                | none => .ok (encryptedVar.meta, encryptedVar.meta.modifyIndex)

/-- An ACL granting every capability with management rights. -/
def aclAllowAll : ACL := { allowVariableOperation := fun _ _ _ => true, isManagement := true }

/-- An ACL granting no capability. -/
def aclDenyAll : ACL := { allowVariableOperation := fun _ _ _ => false, isManagement := false }

/-- An ACL granting only the read capability. -/
def aclReadOnly : ACL :=
  { allowVariableOperation := fun _ _ c => c == Capability.read, isManagement := false }

/-- An ACL granting only the write capability. -/
def aclWriteOnly : ACL :=
  { allowVariableOperation := fun _ _ c => c == Capability.write, isManagement := false }

/-- A raft oracle for executions that never reach submission. -/
def raftUnreachable : VarApplyStateRequest → Except String (VarApplyStateResponse × Nat) :=
  fun _ => .error "unreachable"

/-- Sample unlocked variable metadata. -/
def sampleMeta : VariableMetadata :=
  { ns := "default", path := "a/b", createIndex := 1, modifyIndex := 2,
    createTime := 5, modifyTime := 6, lock := none }

/-- Sample decrypted variable. -/
def sampleVar : VariableDecrypted := { meta := sampleMeta, items := some [("k", "v")] }

/-- Helper: when the permission check denies the operation, `applyBody`
returns `ErrPermissionDenied` with nothing submitted and no timer
action. -/
theorem applyBody_denied (env : ApplyEnv) (args1 : VariablesApplyRequest)
    (v1 : VariableDecrypted) (aclObj : ACL)
    (hv : args1.svar = some v1) (hver : env.versionOk = true)
    (hacl : env.resolveACL = .ok aclObj)
    (hperm : hasOperationPermissions aclObj v1.meta.ns v1.meta.path args1.op =
      some .permissionDenied) :
    applyBody env args1 = ⟨some .permissionDenied, none, none, []⟩ := by
  simp only [applyBody, hv, hver, hacl, hperm, Bool.not_true, Bool.false_eq_true, if_false]

/-- C1: every Apply whose caller lacks the write capability (for
Set/CAS/LockAcquire/LockRelease) or the destroy capability (for
Delete/DeleteCAS) on the variable's (namespace, path) — the namespace
taken after request-namespace defaulting — returns `PermissionDenied`,
submits no mutation to the replicated state machine, and performs no
timer action. -/
theorem C1_permission_gate (env : ApplyEnv) (args : VariablesApplyRequest)
    (v0 : VariableDecrypted) (aclObj : ACL)
    (hauth : env.authOk = true) (hvar : args.svar = some v0) (hver : env.versionOk = true)
    (hacl : env.resolveACL = .ok aclObj)
    (hdeny :
      ((args.op = .set ∨ args.op = .cas ∨ args.op = .lockAcquire ∨ args.op = .lockRelease) ∧
        aclObj.allowVariableOperation (defaultTargetNamespace args v0).meta.ns
          (defaultTargetNamespace args v0).meta.path .write = false) ∨
      ((args.op = .delete ∨ args.op = .deleteCAS) ∧
        aclObj.allowVariableOperation (defaultTargetNamespace args v0).meta.ns
          (defaultTargetNamespace args v0).meta.path .destroy = false)) :
    applyModel env args = ⟨some .permissionDenied, none, none, []⟩ := by
  have hperm : hasOperationPermissions aclObj (defaultTargetNamespace args v0).meta.ns
      (defaultTargetNamespace args v0).meta.path args.op = some .permissionDenied := by
    rcases hdeny with ⟨hop, hcap⟩ | ⟨hop, hcap⟩
    · rcases hop with h | h | h | h <;> simp [hasOperationPermissions, h, hcap]
    · rcases hop with h | h <;> simp [hasOperationPermissions, h, hcap]
  unfold applyModel
  rw [hauth, hvar]
  simp only [Bool.not_true, Bool.false_eq_true, if_false]
  exact applyBody_denied env _ (defaultTargetNamespace args v0) aclObj rfl hver hacl hperm

/-- Witness for C1 at a concrete denied Set request. -/
theorem C1_permission_gate_witness :
    applyModel
      { authOk := true, versionOk := true, resolveACL := .ok aclDenyAll,
        encFn := fun _ => none, decFn := fun _ _ => none, now := 0,
        raft := raftUnreachable, hooks := trivHooks }
      { op := .set, svar := some sampleVar, reqNamespace := "default" } =
      ⟨some .permissionDenied, none, none, []⟩ :=
  C1_permission_gate _ _ sampleVar aclDenyAll rfl rfl rfl rfl
    (Or.inl ⟨Or.inl rfl, rfl⟩)

/-- C2: on a conflict result, a caller without read capability on the
path gets a Conflict with the stored metadata but no Items and the
explicit redacted Result marker, and the stored payload is never
decrypted (the response does not depend on the decrypt oracle at all); a
caller with read capability gets the stored payload decrypted and
returned as the Conflict's Items. -/
theorem C2_conflict_redaction (decFn decFn' : String → String → Option ItemsMap)
    (req : VariablesApplyRequest) (eResp : VarApplyStateResponse) (aclObj : ACL)
    (v : VariableDecrypted) (c : VariableEncrypted)
    (hv : req.svar = some v) (hres : eResp.result = .conflict) (hc : eResp.conflict = some c) :
    (hasReadPermission aclObj v.meta.ns v.meta.path = false →
      makeVariablesApplyResponse decFn req eResp aclObj =
        (some { op := eResp.op, input := some v, output := none,
                conflict := some ⟨c.meta, none⟩, result := .redacted,
                error := eResp.error, index := 0 }, none) ∧
      makeVariablesApplyResponse decFn req eResp aclObj =
        makeVariablesApplyResponse decFn' req eResp aclObj) ∧
    (hasReadPermission aclObj v.meta.ns v.meta.path = true → c.keyID ≠ "" →
      ∀ items, decFn c.data c.keyID = some items →
        makeVariablesApplyResponse decFn req eResp aclObj =
          (some { op := eResp.op, input := some v, output := none,
                  conflict := some ⟨c.meta, some items⟩, result := .conflict,
                  error := eResp.error, index := 0 }, none)) := by
  constructor
  · intro hread
    constructor
    · simp [makeVariablesApplyResponse, hv, hres, hc, hread]
    · simp [makeVariablesApplyResponse, hv, hres, hc, hread]
  · intro hread hkey items hdec
    simp [makeVariablesApplyResponse, hv, hres, hc, hread, hkey, hdec]

/-- Witness for C2: a concrete conflict, once against a write-only
caller (redacted, decrypt oracle irrelevant) and once against a reading
caller (decrypted items returned). -/
theorem C2_conflict_redaction_witness :
    (makeVariablesApplyResponse (fun _ _ => some [("k", "v")])
        { op := .cas, svar := some sampleVar, reqNamespace := "default" }
        { op := .cas, result := .conflict, error := none, writtenSVMeta := none,
          conflict := some ⟨sampleMeta, "ct", "key1"⟩ } aclWriteOnly =
      (some { op := .cas, input := some sampleVar, output := none,
              conflict := some ⟨sampleMeta, none⟩, result := .redacted,
              error := none, index := 0 }, none)) ∧
    (makeVariablesApplyResponse (fun _ _ => some [("k", "v")])
        { op := .cas, svar := some sampleVar, reqNamespace := "default" }
        { op := .cas, result := .conflict, error := none, writtenSVMeta := none,
          conflict := some ⟨sampleMeta, "ct", "key1"⟩ } aclReadOnly =
      (some { op := .cas, input := some sampleVar, output := none,
              conflict := some ⟨sampleMeta, some [("k", "v")]⟩, result := .conflict,
              error := none, index := 0 }, none)) := by
  constructor
  · exact (C2_conflict_redaction (fun _ _ => some [("k", "v")]) (fun _ _ => none) _ _
      aclWriteOnly sampleVar ⟨sampleMeta, "ct", "key1"⟩ rfl rfl rfl).1 (by decide) |>.1
  · exact (C2_conflict_redaction (fun _ _ => some [("k", "v")]) (fun _ _ => none) _ _
      aclReadOnly sampleVar ⟨sampleMeta, "ct", "key1"⟩ rfl rfl rfl).2 (by decide)
      (by decide) [("k", "v")] rfl

/-- Counterexample to C3: a conflict whose stored value has an empty
KeyID but nonzero CreateIndex/ModifyIndex, returned to a caller with
read capability, comes back with CreateIndex and ModifyIndex zeroed
(only Namespace and Path are carried), so the Conflict does not carry
the stored metadata for every zero-KeyID conflict as claimed. -/
theorem C3_counterexample :
    ((makeVariablesApplyResponse (fun _ _ => some [])
        { op := .cas, svar := some sampleVar, reqNamespace := "default" }
        { op := .cas, result := .conflict, error := none, writtenSVMeta := none,
          conflict := some ⟨sampleMeta, "ct", ""⟩ } aclReadOnly).1.bind
      (fun r => r.conflict)).map (fun dv => (dv.meta.createIndex, dv.meta.modifyIndex)) =
      some (0, 0) ∧
    sampleMeta.createIndex = 1 ∧ sampleMeta.modifyIndex = 2 := by decide

/-- C3 (amended): on a conflict, the Conflict field carries the full
stored metadata when the caller lacks read capability, and also when the
caller has read capability and the stored KeyID is non-empty (alongside
the decrypted items); when the caller has read capability and the KeyID
is empty (zero-value conflict), only Namespace and Path are carried and
all other metadata fields are zeroed. -/
theorem C3_conflict_metadata (decFn : String → String → Option ItemsMap)
    (req : VariablesApplyRequest) (eResp : VarApplyStateResponse) (aclObj : ACL)
    (v : VariableDecrypted) (c : VariableEncrypted)
    (hv : req.svar = some v) (hres : eResp.result = .conflict) (hc : eResp.conflict = some c) :
    (hasReadPermission aclObj v.meta.ns v.meta.path = false →
      (makeVariablesApplyResponse decFn req eResp aclObj).1.bind (fun r => r.conflict) =
        some ⟨c.meta, none⟩) ∧
    (hasReadPermission aclObj v.meta.ns v.meta.path = true → c.keyID ≠ "" →
      ∀ items, decFn c.data c.keyID = some items →
        (makeVariablesApplyResponse decFn req eResp aclObj).1.bind (fun r => r.conflict) =
          some ⟨c.meta, some items⟩) ∧
    (hasReadPermission aclObj v.meta.ns v.meta.path = true → c.keyID = "" →
      (makeVariablesApplyResponse decFn req eResp aclObj).1.bind (fun r => r.conflict) =
        some ⟨⟨c.meta.ns, c.meta.path, 0, 0, 0, 0, none⟩, none⟩) := by
  refine ⟨fun hread => ?_, fun hread hkey items hdec => ?_, fun hread hkey => ?_⟩
  · simp [makeVariablesApplyResponse, hv, hres, hc, hread]
  · simp [makeVariablesApplyResponse, hv, hres, hc, hread, hkey, hdec]
  · simp [makeVariablesApplyResponse, hv, hres, hc, hread, hkey]

/-- Witness for the amended C3 across its three branches at concrete
conflicts. -/
theorem C3_conflict_metadata_witness :
    ((makeVariablesApplyResponse (fun _ _ => some [("a", "b")])
        { op := .cas, svar := some sampleVar, reqNamespace := "default" }
        { op := .cas, result := .conflict, error := none, writtenSVMeta := none,
          conflict := some ⟨sampleMeta, "ct", "key1"⟩ } aclWriteOnly).1.bind
      (fun r => r.conflict) = some ⟨sampleMeta, none⟩) ∧
    ((makeVariablesApplyResponse (fun _ _ => some [("a", "b")])
        { op := .cas, svar := some sampleVar, reqNamespace := "default" }
        { op := .cas, result := .conflict, error := none, writtenSVMeta := none,
          conflict := some ⟨sampleMeta, "ct", "key1"⟩ } aclReadOnly).1.bind
      (fun r => r.conflict) = some ⟨sampleMeta, some [("a", "b")]⟩) ∧
    ((makeVariablesApplyResponse (fun _ _ => some [("a", "b")])
        { op := .cas, svar := some sampleVar, reqNamespace := "default" }
        { op := .cas, result := .conflict, error := none, writtenSVMeta := none,
          conflict := some ⟨sampleMeta, "ct", ""⟩ } aclReadOnly).1.bind
      (fun r => r.conflict) = some ⟨⟨"default", "a/b", 0, 0, 0, 0, none⟩, none⟩) := by
  refine ⟨?_, ?_, ?_⟩
  · exact (C3_conflict_metadata (fun _ _ => some [("a", "b")]) _ _ aclWriteOnly sampleVar
      ⟨sampleMeta, "ct", "key1"⟩ rfl rfl rfl).1 (by decide)
  · exact (C3_conflict_metadata (fun _ _ => some [("a", "b")]) _ _ aclReadOnly sampleVar
      ⟨sampleMeta, "ct", "key1"⟩ rfl rfl rfl).2.1 (by decide) (by decide) [("a", "b")] rfl
  · exact (C3_conflict_metadata (fun _ _ => some [("a", "b")]) _ _ aclReadOnly sampleVar
      ⟨sampleMeta, "ct", ""⟩ rfl rfl rfl).2.2 (by decide) rfl

/-- C4: on a non-conflicting success with written metadata, the Output
is exactly the post-write stored metadata paired with the caller's own
submitted Items, and the Output's Lock is the stored lock when the
caller is the lock owner (supplied Lock.ID equal to the stored Lock.ID)
or a management identity, and nil otherwise. -/
theorem C4_output_echo (decFn : String → String → Option ItemsMap)
    (req : VariablesApplyRequest) (eResp : VarApplyStateResponse) (aclObj : ACL)
    (v : VariableDecrypted) (m : VariableMetadata)
    (hv : req.svar = some v) (hres : eResp.result = .ok) (hm : eResp.writtenSVMeta = some m) :
    makeVariablesApplyResponse decFn req eResp aclObj =
      (some { op := eResp.op, input := some v,
              output := some ⟨(if isCallerOwner req m || aclObj.isManagement then m
                               else { m with lock := none }), v.items⟩,
              conflict := none, result := .ok, error := eResp.error, index := 0 }, none) ∧
    ((isCallerOwner req m || aclObj.isManagement) = false →
      ((makeVariablesApplyResponse decFn req eResp aclObj).1.bind (fun r => r.output)).map
        (fun o => o.meta.lock) = some none) := by
  constructor
  · cases hOwn : isCallerOwner req m || aclObj.isManagement <;>
      simp [makeVariablesApplyResponse, hv, hres, hm, hOwn]
  · intro hOwn
    simp [makeVariablesApplyResponse, hv, hres, hm, hOwn]

/-- Witness for C4: a non-owner, non-management writer setting a value
on a path whose stored metadata carries a lock gets the lock stripped
from the echoed output while reading back its own items. -/
theorem C4_output_echo_witness :
    makeVariablesApplyResponse (fun _ _ => none)
      { op := .set, svar := some sampleVar, reqNamespace := "default" }
      { op := .set, result := .ok, error := none,
        writtenSVMeta := some { sampleMeta with lock := some ⟨"lid", 10, 3⟩ },
        conflict := none } aclWriteOnly =
      (some { op := .set, input := some sampleVar,
              output := some ⟨sampleMeta, some [("k", "v")]⟩,
              conflict := none, result := .ok, error := none, index := 0 }, none) := by
  have h := (C4_output_echo (fun _ _ => none)
    { op := .set, svar := some sampleVar, reqNamespace := "default" }
    { op := .set, result := .ok, error := none,
      writtenSVMeta := some { sampleMeta with lock := some ⟨"lid", 10, 3⟩ },
      conflict := none } aclWriteOnly sampleVar
    { sampleMeta with lock := some ⟨"lid", 10, 3⟩ } rfl rfl rfl).1
  simpa using h

/-- Counterexample to C5: a LockRelease with a non-empty Lock.ID and an
empty (but non-nil) Items map is rejected with the items-on-release
error, although the claim says a release with an empty Items map passes
(the source tests `Items != nil || len(Items) != 0`, which fires on any
non-nil map). -/
theorem C5_counterexample :
    canonicalizeAndValidate trivHooks
      { op := .lockRelease,
        svar := some { meta := { sampleMeta with lock := some ⟨"lockid", 0, 0⟩ },
                       items := some [] },
        reqNamespace := "default" } = .error errItemsOnRelease ∧
    itemsLen (some []) = 0 := by decide

/-- C5 (amended): a LockRelease is rejected with the missing-lock-info
error when the Lock is absent or its ID empty; otherwise it is rejected
with the items-on-release error if and only if the Items map is present
(non-nil), even when empty; a release with absent (nil) Items and a
non-empty Lock.ID passes these checks and proceeds to path
validation. -/
theorem C5_release_validation (hooks : StructsHooks) (args : VariablesApplyRequest)
    (v : VariableDecrypted) (hop : args.op = .lockRelease) (hv : args.svar = some v) :
    ((v.meta.lock = none ∨ ∃ l, v.meta.lock = some l ∧ l.id = "") →
      canonicalizeAndValidate hooks args = .error errMissingLockInfo) ∧
    (∀ l, v.meta.lock = some l → l.id ≠ "" →
      ((canonicalizeAndValidate hooks args = .error errItemsOnRelease ↔ v.items ≠ none) ∧
       (v.items = none →
         canonicalizeAndValidate hooks args =
           (match hooks.validatePath v.meta.path with
            | some m => .error (.other m)
            | none => .ok args)))) := by
  constructor
  · intro hmiss
    rcases hmiss with h | ⟨l, hl, hid⟩
    · simp [canonicalizeAndValidate, hop, hv, h]
    · simp [canonicalizeAndValidate, hop, hv, hl, hid]
  · intro l hl hid
    constructor
    · cases hit : v.items with
      | none =>
        cases hvp : hooks.validatePath v.meta.path <;>
          simp [canonicalizeAndValidate, hop, hv, hl, hid, hit, hvp, itemsLen,
            errItemsOnRelease]
      | some xs =>
        simp [canonicalizeAndValidate, hop, hv, hl, hid, hit]
    · intro hit
      simp [canonicalizeAndValidate, hop, hv, hl, hid, hit, itemsLen]

/-- Witness for the amended C5: missing lock info, present-but-empty
items, and nil items at concrete release requests. -/
theorem C5_release_validation_witness :
    (canonicalizeAndValidate trivHooks
      { op := .lockRelease, svar := some { meta := sampleMeta, items := none },
        reqNamespace := "default" } = .error errMissingLockInfo) ∧
    (canonicalizeAndValidate trivHooks
      { op := .lockRelease,
        svar := some { meta := { sampleMeta with lock := some ⟨"lockid", 0, 0⟩ },
                       items := some [] },
        reqNamespace := "default" } = .error errItemsOnRelease) ∧
    (canonicalizeAndValidate trivHooks
      { op := .lockRelease,
        svar := some { meta := { sampleMeta with lock := some ⟨"lockid", 0, 0⟩ },
                       items := none },
        reqNamespace := "default" } =
      .ok { op := .lockRelease,
            svar := some { meta := { sampleMeta with lock := some ⟨"lockid", 0, 0⟩ },
                           items := none },
            reqNamespace := "default" }) := by
  refine ⟨?_, ?_, ?_⟩
  · exact (C5_release_validation trivHooks _ { meta := sampleMeta, items := none }
      rfl rfl).1 (Or.inl rfl)
  · exact ((C5_release_validation trivHooks _
      { meta := { sampleMeta with lock := some ⟨"lockid", 0, 0⟩ }, items := some [] }
      rfl rfl).2 ⟨"lockid", 0, 0⟩ rfl (by decide)).1.mpr (by decide)
  · exact ((C5_release_validation trivHooks _
      { meta := { sampleMeta with lock := some ⟨"lockid", 0, 0⟩ }, items := none }
      rfl rfl).2 ⟨"lockid", 0, 0⟩ rfl (by decide)).2 rfl

/-- C6: a Set or CAS supplying a lock block with nonzero TTL or nonzero
LockDelay is rejected with the lock-on-creation error (the source
rejects such a request unconditionally, so in particular when the write
would create the variable fresh); without lock fields, or with an
all-zero lock block, the request is not rejected on this ground and
proceeds to canonicalization and generic validation. -/
theorem C6_lock_on_creation (hooks : StructsHooks) (args : VariablesApplyRequest)
    (v : VariableDecrypted) (hop : args.op = .set ∨ args.op = .cas) (hv : args.svar = some v) :
    (∀ l, v.meta.lock = some l → (l.lockDelay ≠ 0 ∨ l.ttl ≠ 0) →
      canonicalizeAndValidate hooks args = .error errLockOnVarCreation) ∧
    ((v.meta.lock = none ∨ ∃ i, v.meta.lock = some ⟨i, 0, 0⟩) →
      canonicalizeAndValidate hooks args =
        (match hooks.validateVar (hooks.canonicalizeVar v) with
         | some m => .error (.coded 400 m)
         | none => .ok { args with svar := some (hooks.canonicalizeVar v) })) := by
  constructor
  · intro l hl hcond
    have hb : (l.lockDelay != 0 || l.ttl != 0) = true := by
      rcases hcond with h | h <;> simp [h]
    rcases hop with hop | hop <;>
      simp [canonicalizeAndValidate, hop, hv, hl, hb, errLockOnVarCreation, messageOf]
  · intro hz
    have hb : (match v.meta.lock with
        | some l => l.lockDelay != 0 || l.ttl != 0
        | none => false) = false := by
      rcases hz with h | ⟨i, h⟩ <;> simp [h]
    rcases hop with hop | hop <;> simp [canonicalizeAndValidate, hop, hv, hb]

/-- Witness for C6: a Set with a nonzero-TTL lock block is rejected; a
Set without lock fields passes on to validation. -/
theorem C6_lock_on_creation_witness :
    (canonicalizeAndValidate trivHooks
      { op := .set,
        svar := some { meta := { sampleMeta with lock := some ⟨"", 5, 0⟩ },
                       items := some [("k", "v")] },
        reqNamespace := "default" } = .error errLockOnVarCreation) ∧
    (canonicalizeAndValidate trivHooks
      { op := .set, svar := some sampleVar, reqNamespace := "default" } =
      .ok { op := .set, svar := some sampleVar, reqNamespace := "default" }) := by
  constructor
  · exact (C6_lock_on_creation trivHooks _
      { meta := { sampleMeta with lock := some ⟨"", 5, 0⟩ }, items := some [("k", "v")] }
      (Or.inl rfl) rfl).1 ⟨"", 5, 0⟩ rfl (Or.inr (by decide))
  · exact (C6_lock_on_creation trivHooks _ sampleVar (Or.inl rfl) rfl).2 (Or.inl rfl)

/-- C7: reading an existing variable returns the decrypted variable with
its Lock stripped unless the caller is management, reporting the
variable's ModifyIndex as the response index; reading an absent variable
returns nil data and reports the variables table's maximum index. -/
theorem C7_read_response (decFn : String → String → Option ItemsMap) (aclObj : ACL)
    (stored : Option VariableEncrypted) (tableMaxIndex : Nat) :
    (∀ o items, stored = some o → decFn o.data o.keyID = some items →
      variablesReadRun decFn aclObj stored tableMaxIndex =
        .ok (some ⟨(if aclObj.isManagement then o.meta else { o.meta with lock := none }),
          some items⟩, o.meta.modifyIndex)) ∧
    (stored = none →
      variablesReadRun decFn aclObj stored tableMaxIndex = .ok (none, tableMaxIndex)) := by
  constructor
  · intro o items ho hdec
    cases hMgmt : aclObj.isManagement <;> simp [variablesReadRun, ho, hdec, hMgmt]
  · intro h
    simp [variablesReadRun, h]

/-- Witness for C7: a present locked variable read by a non-management
caller comes back lock-stripped at its ModifyIndex; an absent variable
comes back nil at the table's max index. -/
theorem C7_read_response_witness :
    (variablesReadRun (fun _ _ => some [("k", "v")]) aclReadOnly
      (some ⟨{ sampleMeta with lock := some ⟨"lid", 10, 3⟩ }, "ct", "key1"⟩) 9 =
      .ok (some ⟨sampleMeta, some [("k", "v")]⟩, 2)) ∧
    (variablesReadRun (fun _ _ => some [("k", "v")]) aclReadOnly none 9 =
      .ok (none, 9)) := by
  constructor
  · have h := (C7_read_response (fun _ _ => some [("k", "v")]) aclReadOnly
      (some ⟨{ sampleMeta with lock := some ⟨"lid", 10, 3⟩ }, "ct", "key1"⟩) 9).1
      ⟨{ sampleMeta with lock := some ⟨"lid", 10, 3⟩ }, "ct", "key1"⟩ [("k", "v")] rfl rfl
    simpa using h
  · exact (C7_read_response (fun _ _ => some [("k", "v")]) aclReadOnly none 9).2 rfl

/-- C8: for a stored, locked variable, a renewal with a wrong lock ID
and a renewal with the right lock ID whose server-side timer has already
expired both return the very same error value (`errVarIsLocked`), while
a renewal with the right lock ID and a live timer succeeds with the
current metadata and ModifyIndex. -/
theorem C8_renew_lock (env : RenewEnv) (args : VariablesRenewLockRequest) (aclObj : ACL)
    (ev : VariableEncrypted) (l : VariableLock)
    (hauth : env.authOk = true) (hacl : env.resolveACL = .ok aclObj)
    (hallow : aclObj.allowVariableOperation args.wrNamespace args.path .write = true)
    (hval : env.validateArgs = none)
    (hstored : env.stored = some ev) (hlock : ev.meta.lock = some l) :
    (l.id ≠ args.lockID → renewLockModel env args = .error errVarIsLocked) ∧
    (l.id = args.lockID → env.renewTTL ev ≠ none →
      renewLockModel env args = .error errVarIsLocked) ∧
    (l.id = args.lockID → env.renewTTL ev = none →
      renewLockModel env args = .ok (ev.meta, ev.meta.modifyIndex)) := by
  refine ⟨fun hne => ?_, fun heq hfail => ?_, fun heq hok => ?_⟩
  · simp [renewLockModel, hauth, hacl, hallow, hval, hstored, hlock, hne]
  · obtain ⟨msg, hmsg⟩ := Option.ne_none_iff_exists'.mp hfail
    simp [renewLockModel, hauth, hacl, hallow, hval, hstored, hlock, heq, hmsg]
  · simp [renewLockModel, hauth, hacl, hallow, hval, hstored, hlock, heq, hok]

/-- Witness for C8: wrong-token renewal, expired renewal, and live
renewal at a concrete locked variable. -/
theorem C8_renew_lock_witness :
    (renewLockModel
      { authOk := true, resolveACL := .ok aclWriteOnly, validateArgs := none,
        stored := some ⟨{ sampleMeta with lock := some ⟨"lid", 10, 3⟩ }, "ct", "key1"⟩,
        renewTTL := fun _ => none }
      { path := "a/b", lockID := "wrong", wrNamespace := "default" } =
      .error errVarIsLocked) ∧
    (renewLockModel
      { authOk := true, resolveACL := .ok aclWriteOnly, validateArgs := none,
        stored := some ⟨{ sampleMeta with lock := some ⟨"lid", 10, 3⟩ }, "ct", "key1"⟩,
        renewTTL := fun _ => some "lock expired" }
      { path := "a/b", lockID := "lid", wrNamespace := "default" } =
      .error errVarIsLocked) ∧
    (renewLockModel
      { authOk := true, resolveACL := .ok aclWriteOnly, validateArgs := none,
        stored := some ⟨{ sampleMeta with lock := some ⟨"lid", 10, 3⟩ }, "ct", "key1"⟩,
        renewTTL := fun _ => none }
      { path := "a/b", lockID := "lid", wrNamespace := "default" } =
      .ok ({ sampleMeta with lock := some ⟨"lid", 10, 3⟩ }, 2)) := by
  refine ⟨?_, ?_, ?_⟩
  · exact (C8_renew_lock _ _ aclWriteOnly
      ⟨{ sampleMeta with lock := some ⟨"lid", 10, 3⟩ }, "ct", "key1"⟩ ⟨"lid", 10, 3⟩
      rfl rfl rfl rfl rfl rfl).1 (by decide)
  · exact (C8_renew_lock _ _ aclWriteOnly
      ⟨{ sampleMeta with lock := some ⟨"lid", 10, 3⟩ }, "ct", "key1"⟩ ⟨"lid", 10, 3⟩
      rfl rfl rfl rfl rfl rfl).2.1 rfl (by simp)
  · exact (C8_renew_lock _ _ aclWriteOnly
      ⟨{ sampleMeta with lock := some ⟨"lid", 10, 3⟩ }, "ct", "key1"⟩ ⟨"lid", 10, 3⟩
      rfl rfl rfl rfl rfl rfl).2.2 rfl rfl

/-- Helper: successful validation returns a request with the same
operation and request namespace. -/
theorem canonicalizeAndValidate_shape (hooks : StructsHooks)
    (args args' : VariablesApplyRequest)
    (h : canonicalizeAndValidate hooks args = .ok args') :
    args'.op = args.op ∧ args'.reqNamespace = args.reqNamespace := by
  unfold canonicalizeAndValidate at h
  iterate 8 (all_goals (try dsimp only at h); all_goals (try split at h))
  all_goals (try simp at h)
  all_goals (try subst h)
  all_goals simp_all

/-- Helper: when the canonicalization oracle preserves namespaces,
successful validation preserves the variable's namespace. -/
theorem canonicalizeAndValidate_ns (hooks : StructsHooks)
    (args args' : VariablesApplyRequest) (v v' : VariableDecrypted)
    (hcanon : ∀ w, (hooks.canonicalizeVar w).meta.ns = w.meta.ns)
    (hv : args.svar = some v)
    (h : canonicalizeAndValidate hooks args = .ok args') (hv' : args'.svar = some v') :
    v'.meta.ns = v.meta.ns := by
  unfold canonicalizeAndValidate at h
  iterate 8 (all_goals (try dsimp only at h); all_goals (try split at h))
  all_goals (try simp at h)
  all_goals (try subst h)
  all_goals (try simp at hv')
  all_goals (try subst hv')
  all_goals simp_all [hcanon]

/-- Helper: the encrypted record built for submission keeps the
variable's namespace. -/
theorem buildEV_ns (env : ApplyEnv) (op : VarOp) (v2 : VariableDecrypted)
    (ev : VariableEncrypted) (h : buildEV env op v2 = .ok ev) :
    ev.meta.ns = v2.meta.ns := by
  unfold buildEV at h
  iterate 4 (all_goals (try dsimp only at h); all_goals (try split at h))
  all_goals (try simp at h)
  all_goals (try subst h)
  all_goals simp_all

/-- Helper: a reply assembled by `makeVariablesApplyResponse` alongside
a nil error has an `ok` Result exactly when the state machine reported
`ok`. -/
theorem makeVariablesApplyResponse_ok_result (decFn : String → String → Option ItemsMap)
    (req : VariablesApplyRequest) (eResp : VarApplyStateResponse) (aclObj : ACL)
    (r : VariablesApplyResponse)
    (h : makeVariablesApplyResponse decFn req eResp aclObj = (some r, none)) :
    r.result = .ok ↔ eResp.result = .ok := by
  unfold makeVariablesApplyResponse at h
  iterate 8 (all_goals (try dsimp only at h); all_goals (try split at h))
  all_goals (try simp at h)
  all_goals (try obtain ⟨h, hE⟩ := h)
  all_goals (try subst h)
  all_goals simp_all

/-- Helper: full characterization of the timer-registry side effects of
`applyBody`: on a returned-nil-error, ok-result reply, a timer is
created exactly for LockAcquire and removed exactly for LockRelease;
in every other outcome no timer action is performed. -/
theorem applyBody_timers (env : ApplyEnv) (args1 : VariablesApplyRequest) :
    (∀ r, (applyBody env args1).err = none → (applyBody env args1).reply = some r →
      r.result = .ok →
      ((args1.op = .lockAcquire →
          ∃ ev, (applyBody env args1).timers = [TimerAction.create ev]) ∧
       (args1.op = .lockRelease →
          ∃ ev, (applyBody env args1).timers = [TimerAction.remove ev]) ∧
       (args1.op ≠ .lockAcquire → args1.op ≠ .lockRelease →
          (applyBody env args1).timers = []))) ∧
    (∀ r, (applyBody env args1).reply = some r → r.result ≠ .ok →
      (applyBody env args1).timers = []) ∧
    ((applyBody env args1).err ≠ none → (applyBody env args1).timers = []) := by
  cases hsv : args1.svar with
  | none => simp [applyBody, hsv]
  | some v1 =>
    cases hver : env.versionOk with
    | false => simp [applyBody, hsv, hver]
    | true =>
      cases hacl : env.resolveACL with
      | error e => simp [applyBody, hsv, hver, hacl]
      | ok aclObj =>
        cases hperm : hasOperationPermissions aclObj v1.meta.ns v1.meta.path args1.op with
        | some e => simp [applyBody, hsv, hver, hacl, hperm]
        | none =>
          cases hcv : canonicalizeAndValidate env.hooks args1 with
          | error e => simp [applyBody, hsv, hver, hacl, hperm, hcv]
          | ok args2 =>
            have hop2 := (canonicalizeAndValidate_shape env.hooks args1 args2 hcv).1
            cases hsv2 : args2.svar with
            | none => simp [applyBody, hsv, hver, hacl, hperm, hcv, hsv2]
            | some v2 =>
              cases hev : buildEV env args2.op v2 with
              | error e => simp [applyBody, hsv, hver, hacl, hperm, hcv, hsv2, hev]
              | ok ev =>
                cases hraft : env.raft
                    { op := args2.op, svar := some ev, reqNamespace := args2.reqNamespace } with
                | error m => simp [applyBody, hsv, hver, hacl, hperm, hcv, hsv2, hev, hraft]
                | ok outIdx =>
                  obtain ⟨out, index⟩ := outIdx
                  rcases hmake : makeVariablesApplyResponse env.decFn args2 out aclObj with
                    ⟨ropt, eopt⟩
                  cases eopt with
                  | some e =>
                    simp [applyBody, hsv, hver, hacl, hperm, hcv, hsv2, hev, hraft, hmake]
                  | none =>
                    cases ropt with
                    | none =>
                      simp [applyBody, hsv, hver, hacl, hperm, hcv, hsv2, hev, hraft, hmake]
                    | some r0 =>
                      have hiff := makeVariablesApplyResponse_ok_result env.decFn args2 out
                        aclObj r0 hmake
                      cases hres : out.result with
                      | ok =>
                        cases hopc : args1.op <;>
                          simp_all [applyBody, hsv, hver, hacl, hperm, hcv, hsv2, hev,
                            hraft, hmake]
                      | conflict =>
                        simp_all [applyBody, hsv, hver, hacl, hperm, hcv, hsv2, hev,
                          hraft, hmake]
                      | error =>
                        simp_all [applyBody, hsv, hver, hacl, hperm, hcv, hsv2, hev,
                          hraft, hmake]
                      | redacted =>
                        simp_all [applyBody, hsv, hver, hacl, hperm, hcv, hsv2, hev,
                          hraft, hmake]

/-- Counterexample to C9: a successful Delete (state-machine result ok,
nil returned error) performs no timer-registry action at all, although
the claim says the timer is deregistered on every successful mutation
that clears the lock, such as a Delete of a locked variable. -/
theorem C9_counterexample :
    (applyModel
      { authOk := true, versionOk := true, resolveACL := .ok aclAllowAll,
        encFn := fun _ => some ("ct", "key1"), decFn := fun _ _ => some [], now := 3,
        raft := fun sve =>
          .ok ({ op := sve.op, result := .ok, error := none, writtenSVMeta := none,
                 conflict := none }, 7),
        hooks := trivHooks }
      { op := .delete,
        svar := some { meta := { sampleMeta with lock := some ⟨"lid", 10, 3⟩ },
                       items := none },
        reqNamespace := "default" }).err = none ∧
    ((applyModel
      { authOk := true, versionOk := true, resolveACL := .ok aclAllowAll,
        encFn := fun _ => some ("ct", "key1"), decFn := fun _ _ => some [], now := 3,
        raft := fun sve =>
          .ok ({ op := sve.op, result := .ok, error := none, writtenSVMeta := none,
                 conflict := none }, 7),
        hooks := trivHooks }
      { op := .delete,
        svar := some { meta := { sampleMeta with lock := some ⟨"lid", 10, 3⟩ },
                       items := none },
        reqNamespace := "default" }).reply.map (fun r => r.result)) = some .ok ∧
    (applyModel
      { authOk := true, versionOk := true, resolveACL := .ok aclAllowAll,
        encFn := fun _ => some ("ct", "key1"), decFn := fun _ _ => some [], now := 3,
        raft := fun sve =>
          .ok ({ op := sve.op, result := .ok, error := none, writtenSVMeta := none,
                 conflict := none }, 7),
        hooks := trivHooks }
      { op := .delete,
        svar := some { meta := { sampleMeta with lock := some ⟨"lid", 10, 3⟩ },
                       items := none },
        reqNamespace := "default" }).timers = [] := by decide

/-- C9 (amended): on an Apply that returns nil error with an ok-result
reply, a lock TTL timer is created exactly when the operation was
LockAcquire and removed exactly when it was LockRelease; for every other
operation (including a Delete of a locked variable) and for every
conflict or error outcome, Apply performs no timer-registry action. -/
theorem C9_timer_registration (env : ApplyEnv) (args : VariablesApplyRequest) :
    (∀ r, (applyModel env args).err = none → (applyModel env args).reply = some r →
      r.result = .ok →
      ((args.op = .lockAcquire →
          ∃ ev, (applyModel env args).timers = [TimerAction.create ev]) ∧
       (args.op = .lockRelease →
          ∃ ev, (applyModel env args).timers = [TimerAction.remove ev]) ∧
       (args.op ≠ .lockAcquire → args.op ≠ .lockRelease →
          (applyModel env args).timers = []))) ∧
    (∀ r, (applyModel env args).reply = some r → r.result ≠ .ok →
      (applyModel env args).timers = []) ∧
    ((applyModel env args).err ≠ none → (applyModel env args).timers = []) := by
  cases hauth : env.authOk with
  | false => simp [applyModel, hauth]
  | true =>
    cases hsv : args.svar with
    | none => simp [applyModel, hauth, hsv]
    | some v0 =>
      have h := applyBody_timers env { args with svar := some (defaultTargetNamespace args v0) }
      simp only [applyModel, hauth, hsv, Bool.not_true, Bool.false_eq_true, if_false]
      simpa using h

/-- Witness for the amended C9: a concrete successful LockAcquire
creates a timer. -/
theorem C9_timer_registration_witness :
    ∃ ev, (applyModel
      { authOk := true, versionOk := true, resolveACL := .ok aclAllowAll,
        encFn := fun _ => some ("ct", "key1"), decFn := fun _ _ => some [], now := 3,
        raft := fun sve =>
          .ok ({ op := sve.op, result := .ok, error := none, writtenSVMeta := some sampleMeta,
                 conflict := none }, 5),
        hooks := trivHooks }
      { op := .lockAcquire, svar := some sampleVar,
        reqNamespace := "default" }).timers = [TimerAction.create ev] := by
  have h := (C9_timer_registration
    { authOk := true, versionOk := true, resolveACL := .ok aclAllowAll,
      encFn := fun _ => some ("ct", "key1"), decFn := fun _ _ => some [], now := 3,
      raft := fun sve =>
        .ok ({ op := sve.op, result := .ok, error := none, writtenSVMeta := some sampleMeta,
               conflict := none }, 5),
      hooks := trivHooks }
    { op := .lockAcquire, svar := some sampleVar, reqNamespace := "default" }).1
  exact (h _ rfl rfl rfl).1 rfl

/-- Helper: whatever `applyBody` submits to the state machine carries
the namespace of the variable it was invoked with (assuming the
canonicalization oracle preserves namespaces). -/
theorem applyBody_submitted_ns (env : ApplyEnv) (args1 : VariablesApplyRequest)
    (v1 : VariableDecrypted) (hv : args1.svar = some v1)
    (hcanon : ∀ w, (env.hooks.canonicalizeVar w).meta.ns = w.meta.ns) :
    ∀ s e, (applyBody env args1).submitted = some s → s.svar = some e →
      e.meta.ns = v1.meta.ns := by
  intro s e hs he
  cases hver : env.versionOk with
  | false => simp [applyBody, hv, hver] at hs
  | true =>
    cases hacl : env.resolveACL with
    | error e0 => simp [applyBody, hv, hver, hacl] at hs
    | ok aclObj =>
      cases hperm : hasOperationPermissions aclObj v1.meta.ns v1.meta.path args1.op with
      | some e0 => simp [applyBody, hv, hver, hacl, hperm] at hs
      | none =>
        cases hcv : canonicalizeAndValidate env.hooks args1 with
        | error e0 => simp [applyBody, hv, hver, hacl, hperm, hcv] at hs
        | ok args2 =>
          cases hsv2 : args2.svar with
          | none => simp [applyBody, hv, hver, hacl, hperm, hcv, hsv2] at hs
          | some v2 =>
            have hns2 : v2.meta.ns = v1.meta.ns :=
              canonicalizeAndValidate_ns env.hooks args1 args2 v1 v2 hcanon hv hcv hsv2
            cases hev : buildEV env args2.op v2 with
            | error e0 => simp [applyBody, hv, hver, hacl, hperm, hcv, hsv2, hev] at hs
            | ok ev =>
              have hevns : ev.meta.ns = v2.meta.ns := buildEV_ns env args2.op v2 ev hev
              cases hraft : env.raft
                  { op := args2.op, svar := some ev, reqNamespace := args2.reqNamespace } with
              | error m =>
                simp [applyBody, hv, hver, hacl, hperm, hcv, hsv2, hev, hraft] at hs
                subst hs
                simp at he
                subst he
                rw [hevns]
                exact hns2
              | ok outIdx =>
                obtain ⟨out, index⟩ := outIdx
                rcases hmake : makeVariablesApplyResponse env.decFn args2 out aclObj with
                  ⟨ropt, eopt⟩
                cases eopt with
                | some e0 =>
                  simp [applyBody, hv, hver, hacl, hperm, hcv, hsv2, hev, hraft, hmake] at hs
                  subst hs
                  simp at he
                  subst he
                  rw [hevns]
                  exact hns2
                | none =>
                  cases ropt with
                  | none =>
                    simp [applyBody, hv, hver, hacl, hperm, hcv, hsv2, hev, hraft, hmake] at hs
                    subst hs
                    simp at he
                    subst he
                    rw [hevns]
                    exact hns2
                  | some r0 =>
                    simp [applyBody, hv, hver, hacl, hperm, hcv, hsv2, hev, hraft, hmake] at hs
                    subst hs
                    simp at he
                    subst he
                    rw [hevns]
                    exact hns2

/-- C10: a variable submitted with an empty Namespace takes the
request's namespace before anything else happens — the whole remainder
of Apply (ACL check included) runs on the defaulted request — while a
non-empty Namespace is left untouched; whatever record reaches the
state machine carries that post-defaulting namespace. -/
theorem C10_namespace_defaulting (env : ApplyEnv) (args : VariablesApplyRequest)
    (v0 : VariableDecrypted) (hvar : args.svar = some v0)
    (hcanon : ∀ w, (env.hooks.canonicalizeVar w).meta.ns = w.meta.ns) :
    (v0.meta.ns = "" → (defaultTargetNamespace args v0).meta.ns = args.reqNamespace) ∧
    (v0.meta.ns ≠ "" → defaultTargetNamespace args v0 = v0) ∧
    (env.authOk = true →
      applyModel env args =
        applyBody env { args with svar := some (defaultTargetNamespace args v0) }) ∧
    (∀ s e, (applyModel env args).submitted = some s → s.svar = some e →
      e.meta.ns = (defaultTargetNamespace args v0).meta.ns) := by
  refine ⟨fun h => ?_, fun h => ?_, fun hauth => ?_, fun s e hs he => ?_⟩
  · simp [defaultTargetNamespace, h]
  · simp [defaultTargetNamespace, h]
  · simp [applyModel, hauth, hvar]
  · cases hauth : env.authOk with
    | false => simp [applyModel, hauth] at hs
    | true =>
      rw [show applyModel env args =
          applyBody env { args with svar := some (defaultTargetNamespace args v0) } from by
        simp [applyModel, hauth, hvar]] at hs
      exact applyBody_submitted_ns env _ (defaultTargetNamespace args v0) rfl hcanon s e hs he

/-- Witness for C10: a variable with empty namespace picks up the
request namespace; one with a set namespace keeps it even though it
differs from the request namespace. -/
theorem C10_namespace_defaulting_witness :
    (defaultTargetNamespace
      { op := .set, svar := some { meta := { sampleMeta with ns := "" }, items := none },
        reqNamespace := "teamA" }
      { meta := { sampleMeta with ns := "" }, items := none }).meta.ns = "teamA" ∧
    defaultTargetNamespace
      { op := .set, svar := some sampleVar, reqNamespace := "teamA" } sampleVar =
      sampleVar := by
  constructor
  · exact (C10_namespace_defaulting
      { authOk := true, versionOk := true, resolveACL := .ok aclAllowAll,
        encFn := fun _ => none, decFn := fun _ _ => none, now := 0,
        raft := raftUnreachable, hooks := trivHooks }
      { op := .set, svar := some { meta := { sampleMeta with ns := "" }, items := none },
        reqNamespace := "teamA" }
      { meta := { sampleMeta with ns := "" }, items := none } rfl (fun _ => rfl)).1 rfl
  · exact (C10_namespace_defaulting
      { authOk := true, versionOk := true, resolveACL := .ok aclAllowAll,
        encFn := fun _ => none, decFn := fun _ _ => none, now := 0,
        raft := raftUnreachable, hooks := trivHooks }
      { op := .set, svar := some sampleVar, reqNamespace := "teamA" }
      sampleVar rfl (fun _ => rfl)).2.1 (by decide)

end NomadVariables
